import Mathlib

/-!
Shallow embedding of the music-rehearsal-scheduler backend
(Express + Prisma, TypeScript) and proofs about the behaviour of its
route handlers.

The embedding models the relational database as explicit lists of rows
(one list per Prisma model) and each route handler as a pure function
from the incoming request data and the current database state to an
HTTP-style response plus the successor database state.  Two divergent
implementations exist for the rehearsal routes in the repository
(src/backend/src/routes/rehearsal.routes.ts, called variant A below,
and a second file with unknown path, called variant B below); both are
embedded.

Conventions:
* ids and enumeration values (roles, statuses) are `String`s, exactly
  as in the Prisma schema (`role String`, `status String`);
* timestamps are `Int` (epoch milliseconds); the JS comparison
  `new Date(a) >= new Date(b)` becomes `a ≥ b`;
* auto-generated uuids are supplied as explicit arguments so that the
  handlers stay pure (`newId`, or an `attId : Nat → String` supply for
  `createMany` bulk inserts);
* `bcrypt.compare` is passed in as an abstract comparison function
  `cmp : String → String → Bool`;
* the `JWT_SECRET` environment check is the boolean `jwtSecretSet`.
-/

namespace RehearsalScheduler

/-- A row of the `User` model (fields the handlers touch). -/
structure User where
  id : String
  name : String
  email : String
  passwordHash : String
  deriving DecidableEq

/-- A row of the `Band` model. -/
structure Band where
  id : String
  name : String
  deriving DecidableEq

/-- A row of the `BandMember` model: role is LEADER or MEMBER, status is
ACTIVE, INACTIVE or PENDING. -/
structure BandMember where
  id : String
  bandId : String
  userId : String
  role : String
  status : String
  deriving DecidableEq

/-- A row of the `Rehearsal` model. -/
structure Rehearsal where
  id : String
  bandId : String
  title : String
  description : Option String
  startDatetime : Int
  endDatetime : Int
  location : String
  isRecurring : Bool
  recurrencePattern : Option String
  createdById : String
  deriving DecidableEq

/-- A row of the `RehearsalAttendance` model.  Variant A of the code
uses the `comment`/`updatedAt` columns, variant B uses
`reason`/`responseTime`; the embedding carries all four. -/
structure RehearsalAttendance where
  id : String
  rehearsalId : String
  userId : String
  status : String
  comment : Option String
  reason : Option String
  updatedAt : Int
  responseTime : Option Int
  deriving DecidableEq

/-- A row of the `Notification` model (id omitted: no handler reads it
back). -/
structure Notification where
  userId : String
  kind : String
  content : String
  relatedId : Option String
  deriving DecidableEq

/-- The whole database state: one list of rows per Prisma model. -/
structure DB where
  users : List User
  bands : List Band
  bandMembers : List BandMember
  rehearsals : List Rehearsal
  attendances : List RehearsalAttendance
  notifications : List Notification
  deriving DecidableEq

/-- An HTTP-style JSON response, following the repository-wide body
shape (success, message?, data?, error?) plus the HTTP status code. -/
structure Resp (α : Type) where
  status : Nat
  success : Bool
  message : Option String
  error : Option String
  data : Option α
  deriving DecidableEq

/-- Error response: status code plus message and error strings. -/
def respErr {α : Type} (status : Nat) (msg err : String) : Resp α :=
  ⟨status, false, some msg, some err, none⟩

/-- Success response with a message. -/
def respOk {α : Type} (status : Nat) (msg : String) (d : α) : Resp α :=
  ⟨status, true, some msg, none, some d⟩

/-- Success response without a message (plain `GET` reads). -/
def respData {α : Type} (status : Nat) (d : α) : Resp α :=
  ⟨status, true, none, none, some d⟩

/-- The generic 500 produced by the central error handler for an
uncaught exception. -/
def respServerError {α : Type} : Resp α :=
  respErr 500 "Internal server error" "ServerError"

/-! ## Authentication routes (src/backend/src/routes/auth.routes.ts) -/

/-- Handler for `POST /api/auth/register`.
`passwordHash` stands for `bcrypt.hash(password, salt)`; `newUserId`
for the generated uuid.  Mirrors the handler: 409 when a user with the
email exists, otherwise the user row is created and (when the JWT
secret is configured) a 201 is returned; when `JWT_SECRET` is missing
the handler throws after creating the user and the central error
handler answers 500. -/
def register (db : DB) (email passwordHash name newUserId : String)
    (jwtSecretSet : Bool) : Resp String × DB :=
  match db.users.find? (fun u => u.email == email) with
  | some _ => (respErr 409 "User with this email already exists" "Conflict", db)
  | none =>
      let user : User := ⟨newUserId, name, email, passwordHash⟩
      let db' : DB := { db with users := db.users ++ [user] }
      if jwtSecretSet then
        (respOk 201 "User registered successfully" newUserId, db')
      else
        (respServerError, db')

/-- Handler for `POST /api/auth/login`.
`cmp password hash` stands for `await bcrypt.compare(password, hash)`.
Unknown email and failed hash comparison both answer
401 `"Invalid credentials"` / `"Unauthorized"`. -/
def login (db : DB) (email password : String)
    (cmp : String → String → Bool) (jwtSecretSet : Bool) : Resp String × DB :=
  match db.users.find? (fun u => u.email == email) with
  | none => (respErr 401 "Invalid credentials" "Unauthorized", db)
  | some user =>
      if cmp password user.passwordHash then
        if jwtSecretSet then
          (respOk 200 "Login successful" user.id, db)
        else
          (respServerError, db)
      else
        (respErr 401 "Invalid credentials" "Unauthorized", db)

/-! ## Membership predicates appearing in the handlers' Prisma queries -/

/-- Row filter: membership of `userId` in `bandId` with status ACTIVE. -/
def activeMemberOf (bandId userId : String) (m : BandMember) : Bool :=
  m.bandId == bandId && m.userId == userId && m.status == "ACTIVE"

/-- Row filter: membership of `userId` in `bandId` with role LEADER and
status ACTIVE. -/
def activeLeaderOf (bandId userId : String) (m : BandMember) : Bool :=
  m.bandId == bandId && m.userId == userId && m.role == "LEADER" && m.status == "ACTIVE"

/-- Row filter: membership of `userId` in `bandId` with role LEADER,
no status condition. -/
def leaderOf (bandId userId : String) (m : BandMember) : Bool :=
  m.bandId == bandId && m.userId == userId && m.role == "LEADER"

/-- Row filter: any membership of `userId` in `bandId`. -/
def memberOf (bandId userId : String) (m : BandMember) : Bool :=
  m.bandId == bandId && m.userId == userId

/-- Row filter: any ACTIVE membership in `bandId`. -/
def activeInBand (bandId : String) (m : BandMember) : Bool :=
  m.bandId == bandId && m.status == "ACTIVE"

/-- Row filter: any LEADER membership in `bandId` with status ACTIVE. -/
def activeLeaderInBand (bandId : String) (m : BandMember) : Bool :=
  m.bandId == bandId && m.role == "LEADER" && m.status == "ACTIVE"

/-- Row filter: any LEADER membership in `bandId`, no status condition. -/
def leaderInBand (bandId : String) (m : BandMember) : Bool :=
  m.bandId == bandId && m.role == "LEADER"

/-- Row filter: the attendance row of `userId` for `rehearsalId`. -/
def attendanceOf (rehearsalId userId : String) (a : RehearsalAttendance) : Bool :=
  a.rehearsalId == rehearsalId && a.userId == userId

/-! ## Band routes (src/backend/src/routes/band.routes.ts) -/

/-- Handler for `GET /api/bands/:id`.
404 when the band row is missing; 403 when the caller has no membership
row with status ACTIVE in the band (`band.members.some(...)` in the
source); 200 with the band as the body otherwise. -/
def getBandById (db : DB) (callerId bandId : String) : Resp Band × DB :=
  match db.bands.find? (fun b => b.id == bandId) with
  | none => (respErr 404 "Band not found" "Not Found", db)
  | some band =>
      let isMember := db.bandMembers.any (activeMemberOf bandId callerId)
      if isMember then
        (respData 200 band, db)
      else
        (respErr 403 "You are not a member of this band" "Forbidden", db)

/-- Handler for `POST /api/bands/:id/members`.
Order of checks, as in the source: the caller needs a membership row in
the band with role LEADER and status ACTIVE (else 403); the target email
must belong to a user (else 404); an existing membership of the target
is reactivated when INACTIVE (200) and answers 409 otherwise; with no
existing membership a new row with status ACTIVE is created (201) plus
a BAND_INVITATION notification. -/
def addBandMember (db : DB) (callerId bandId email role newMemberId : String) :
    Resp BandMember × DB :=
  match db.bandMembers.find? (activeLeaderOf bandId callerId) with
  | none => (respErr 403 "Only band leaders can add members" "Forbidden", db)
  | some _ =>
    match db.users.find? (fun u => u.email == email) with
    | none => (respErr 404 "User not found" "Not Found", db)
    | some user =>
      match db.bandMembers.find? (memberOf bandId user.id) with
      | some existingMembership =>
          if existingMembership.status == "INACTIVE" then
            let updated : BandMember :=
              { existingMembership with status := "ACTIVE", role := role }
            let updatedMembers := db.bandMembers.map (fun m =>
              if m.id == existingMembership.id then updated else m)
            let db' : DB := { db with bandMembers := updatedMembers }
            (respOk 200 "Member reactivated successfully" updated, db')
          else
            (respErr 409 "User is already a member of this band" "Conflict", db)
      | none =>
          let newMembership : BandMember :=
            ⟨newMemberId, bandId, user.id, role, "ACTIVE"⟩
          let bandName :=
            match db.bands.find? (fun b => b.id == bandId) with
            | some b => b.name
            | none => "undefined"
          let notif : Notification :=
            ⟨user.id, "BAND_INVITATION", "You have been added to " ++ bandName,
             some bandId⟩
          let db' : DB := { db with
            bandMembers := db.bandMembers ++ [newMembership],
            notifications := db.notifications ++ [notif] }
          (respOk 201 "Member added successfully" newMembership, db')

/-! ## Rehearsal routes
Variant A: src/backend/src/routes/rehearsal.routes.ts.
Variant B: second rehearsal-route file of the repository (path unknown). -/

/-- The request body of `POST /api/rehearsals` after express-validator
has accepted it (valid uuid, ISO dates parsed to timestamps). -/
structure RehearsalInput where
  bandId : String
  title : String
  description : Option String
  startDatetime : Int
  endDatetime : Int
  location : String
  isRecurring : Bool
  recurrencePattern : Option String
  deriving DecidableEq

/-- Modelled from the spec: variant B inserts its attendance rows
without an explicit status and relies on the database default of its
schema variant, which is not part of this repository snapshot; the spec
states the default status is `PENDING`. -/
def defaultAttendanceStatus : String := "PENDING"

/-- The bulk insert `rehearsalAttendance.createMany` over the mapped
member list: one row per member, ids drawn from the uuid supply
`attId`, starting at index `i`. -/
def mkAttendanceRows (attId : Nat → String) (rehearsalId status : String)
    (now : Int) : Nat → List BandMember → List RehearsalAttendance
  | _, [] => []
  | i, m :: ms =>
      ⟨attId i, rehearsalId, m.userId, status, none, none, now, none⟩ ::
        mkAttendanceRows attId rehearsalId status now (i + 1) ms

/-- Handler for `POST /api/rehearsals`, variant A.
Checks, in source order: the caller holds an ACTIVE membership in the
band (else 403), then `start < end` (else 400); on success inserts the
rehearsal, one PENDING attendance row per ACTIVE member, and one
NEW_REHEARSAL notification per ACTIVE member other than the creator. -/
def createRehearsalA (db : DB) (callerId : String) (inp : RehearsalInput)
    (newId : String) (attId : Nat → String) (now : Int) : Resp Rehearsal × DB :=
  match db.bandMembers.find? (activeMemberOf inp.bandId callerId) with
  | none =>
      (respErr 403 "You must be a band member to create rehearsals" "Forbidden", db)
  | some _ =>
      if inp.startDatetime ≥ inp.endDatetime then
        (respErr 400 "End time must be after start time" "Bad Request", db)
      else
        let rehearsal : Rehearsal :=
          ⟨newId, inp.bandId, inp.title, inp.description, inp.startDatetime,
           inp.endDatetime, inp.location, inp.isRecurring,
           inp.recurrencePattern, callerId⟩
        let activeMembers := db.bandMembers.filter (activeInBand inp.bandId)
        let newAtts := mkAttendanceRows attId newId "PENDING" now 0 activeMembers
        let newNotifs := (activeMembers.filter (fun m => m.userId != callerId)).map
          (fun m => (⟨m.userId, "NEW_REHEARSAL", "New rehearsal: " ++ inp.title,
            some newId⟩ : Notification))
        let db' : DB := { db with
          rehearsals := db.rehearsals ++ [rehearsal],
          attendances := db.attendances ++ newAtts,
          notifications := db.notifications ++ newNotifs }
        (respOk 201 "Rehearsal created successfully" rehearsal, db')

/-- Handler for `POST /api/rehearsals`, variant B.
Checks, in source order: `start < end` first (else 400), then that the
caller holds a membership with role LEADER — with no status filter —
in the band (else 403); on success inserts the rehearsal, one
attendance row per ACTIVE member with the schema-default status, and
NEW_REHEARSAL notifications (the source skips the `createMany` call
when the notification list is empty, which inserts the same rows). -/
def createRehearsalB (db : DB) (callerId : String) (inp : RehearsalInput)
    (newId : String) (attId : Nat → String) (now : Int) : Resp Rehearsal × DB :=
  if inp.startDatetime ≥ inp.endDatetime then
    (respErr 400 "Start time must be before end time" "Bad Request", db)
  else
    match db.bandMembers.find? (leaderOf inp.bandId callerId) with
    | none =>
        (respErr 403 "You must be a band leader to create rehearsals" "Forbidden", db)
    | some _ =>
        let rehearsal : Rehearsal :=
          ⟨newId, inp.bandId, inp.title, inp.description, inp.startDatetime,
           inp.endDatetime, inp.location, inp.isRecurring,
           inp.recurrencePattern, callerId⟩
        let activeMembers := db.bandMembers.filter (activeInBand inp.bandId)
        let newAtts :=
          mkAttendanceRows attId newId defaultAttendanceStatus now 0 activeMembers
        let newNotifs := (activeMembers.filter (fun m => m.userId != callerId)).map
          (fun m => (⟨m.userId, "NEW_REHEARSAL", "New rehearsal: " ++ inp.title ++
            " on " ++ toString inp.startDatetime, some newId⟩ : Notification))
        let db' : DB := { db with
          rehearsals := db.rehearsals ++ [rehearsal],
          attendances := db.attendances ++ newAtts,
          notifications := db.notifications ++ newNotifs }
        (respOk 201 "Rehearsal created successfully" rehearsal, db')

/-- Handler for `GET /api/rehearsals/:id`, variant A.
404 when the rehearsal is missing; 403 when the included
`band.members` list — filtered to the caller with status ACTIVE — is
empty; 200 with the rehearsal as the body otherwise. -/
def getRehearsalByIdA (db : DB) (callerId rehearsalId : String) :
    Resp Rehearsal × DB :=
  match db.rehearsals.find? (fun r => r.id == rehearsalId) with
  | none => (respErr 404 "Rehearsal not found" "Not Found", db)
  | some rehearsal =>
      let callerMemberships :=
        db.bandMembers.filter (activeMemberOf rehearsal.bandId callerId)
      if callerMemberships.isEmpty then
        (respErr 403 "You are not authorized to view this rehearsal" "Forbidden", db)
      else
        (respData 200 rehearsal, db)

/-- Handler for `GET /api/rehearsals/:id`, variant B.
404 when the rehearsal is missing; 403 when the caller has no
membership row at all in the owning band (any status counts); 200 with
the rehearsal as the body otherwise. -/
def getRehearsalByIdB (db : DB) (callerId rehearsalId : String) :
    Resp Rehearsal × DB :=
  match db.rehearsals.find? (fun r => r.id == rehearsalId) with
  | none => (respErr 404 "Rehearsal not found" "Not Found", db)
  | some rehearsal =>
      match db.bandMembers.find? (memberOf rehearsal.bandId callerId) with
      | none =>
          (respErr 403 "You are not authorized to access this rehearsal" "Forbidden", db)
      | some _ => (respData 200 rehearsal, db)

/-- The `prisma.rehearsalAttendance.update` of either attendance
handler: replace the row whose unique id matches, keep every other
row. -/
def applyAttendanceUpdate (l : List RehearsalAttendance) (attId : String)
    (upd : RehearsalAttendance) : List RehearsalAttendance :=
  l.map (fun x => if x.id == attId then upd else x)

/-- The updated row the PUT variant writes: new status, comment and
updatedAt. -/
def putUpdatedRow (att : RehearsalAttendance) (status : String)
    (comment : Option String) (now : Int) : RehearsalAttendance :=
  { att with status := status, comment := comment, updatedAt := now }

/-- The updated row the POST variant writes: new status, reason and
responseTime. -/
def postUpdatedRow (att : RehearsalAttendance) (status : String)
    (reason : Option String) (now : Int) : RehearsalAttendance :=
  { att with status := status, reason := reason, responseTime := some now }

/-- Handler for `PUT /api/rehearsals/:id/attendance`, variant A.
Finds the caller's own attendance row (404 if absent), updates its
status / comment / updatedAt, and when the new status is NOT_ATTENDING
notifies the single first-found ACTIVE LEADER of the band — if there
is one and it is not the caller.  `callerName` is `req.user.name` from
the auth middleware.  The rehearsal row joined by the query exists
whenever foreign keys are intact; a missing row surfaces as the
uncaught-error 500. -/
def updateAttendancePut (db : DB) (callerId callerName rehearsalId status : String)
    (comment : Option String) (now : Int) : Resp RehearsalAttendance × DB :=
  match db.attendances.find? (attendanceOf rehearsalId callerId) with
  | none => (respErr 404 "Attendance record not found" "Not Found", db)
  | some attendance =>
      let updated := putUpdatedRow attendance status comment now
      let updatedAttendances :=
        applyAttendanceUpdate db.attendances attendance.id updated
      let db1 : DB := { db with attendances := updatedAttendances }
      if status == "NOT_ATTENDING" then
        match db.rehearsals.find? (fun r => r.id == attendance.rehearsalId) with
        | none => (respServerError, db1)
        | some rehearsal =>
            match db.bandMembers.find? (activeLeaderInBand rehearsal.bandId) with
            | some bandLeader =>
                if bandLeader.userId != callerId then
                  let notif : Notification :=
                    ⟨bandLeader.userId, "ATTENDANCE_UPDATE",
                     callerName ++ " cannot attend " ++ rehearsal.title,
                     some rehearsalId⟩
                  let db2 : DB :=
                    { db1 with notifications := db1.notifications ++ [notif] }
                  (respOk 200 "Attendance updated successfully" updated, db2)
                else
                  (respOk 200 "Attendance updated successfully" updated, db1)
            | none =>
                (respOk 200 "Attendance updated successfully" updated, db1)
      else
        (respOk 200 "Attendance updated successfully" updated, db1)

/-- Handler for `POST /api/rehearsals/:id/attendance`, variant B.
Finds the caller's own attendance row by the compound unique key (404
if absent), updates its status / reason / responseTime, and when the
new status is DECLINED notifies every LEADER of the band — with no
status filter — other than the caller. -/
def updateAttendancePost (db : DB) (callerId rehearsalId status : String)
    (reason : Option String) (now : Int) : Resp RehearsalAttendance × DB :=
  match db.attendances.find? (attendanceOf rehearsalId callerId) with
  | none => (respErr 404 "Attendance record not found" "Not Found", db)
  | some attendance =>
      let updated := postUpdatedRow attendance status reason now
      let updatedAttendances :=
        applyAttendanceUpdate db.attendances attendance.id updated
      let db1 : DB := { db with attendances := updatedAttendances }
      if status == "DECLINED" then
        match db.rehearsals.find? (fun r => r.id == attendance.rehearsalId) with
        | none => (respServerError, db1)
        | some rehearsal =>
            let bandLeaders := db.bandMembers.filter (leaderInBand rehearsal.bandId)
            let userName :=
              match db.users.find? (fun u => u.id == callerId) with
              | some u => u.name
              | none => "undefined"
            let reasonText :=
              match reason with
              | some r => ": " ++ r
              | none => ""
            let newNotifs := (bandLeaders.filter (fun l => l.userId != callerId)).map
              (fun l => (⟨l.userId, "ATTENDANCE_UPDATE",
                userName ++ " cannot make it to " ++ rehearsal.title ++ reasonText,
                some rehearsalId⟩ : Notification))
            let db2 : DB := { db1 with notifications := db1.notifications ++ newNotifs }
            (respOk 200 "Attendance updated successfully" updated, db2)
      else
        (respOk 200 "Attendance updated successfully" updated, db1)

/-! ## Suggested times (variant A file, GET /api/rehearsals/suggested-times) -/

/-- The components of the current date the generator reads:
`getFullYear`, `getMonth`, `getDate`, `getDay` (0 = Sunday). -/
structure NowParts where
  year : Int
  month : Int
  date : Int
  weekday : Int
  deriving DecidableEq

/-- The argument tuple of a JS `new Date(year, month, day, hour, 0, 0)`
call (minutes and seconds are always zero in this code). -/
structure DateArgs where
  year : Int
  month : Int
  day : Int
  hour : Int
  deriving DecidableEq

/-- One suggested slot.  The source stores confidence as a float
(0.9 / 0.8 / 0.7); it is embedded as a percentage to stay in exact
arithmetic. -/
structure Suggestion where
  startDatetime : DateArgs
  endDatetime : DateArgs
  confidencePct : Nat
  message : String
  deriving DecidableEq

/-- The day-offset computation `(target - now.getDay() + 7) % 7`,
with the sign behaviour of the JS `%` operator. -/
def daysUntilWeekday (target weekday : Int) : Int :=
  Int.tmod (target - weekday + 7) 7

/-- The fixed suggestion list the handler builds from the current
date: next Saturday 19-22h, next Sunday 14-17h, next Tuesday 18-21h. -/
def suggestedTimes (now : NowParts) : List Suggestion :=
  [ ⟨⟨now.year, now.month, now.date + daysUntilWeekday 6 now.weekday, 19⟩,
     ⟨now.year, now.month, now.date + daysUntilWeekday 6 now.weekday, 22⟩,
     90, "All members are typically available"⟩,
    ⟨⟨now.year, now.month, now.date + daysUntilWeekday 0 now.weekday, 14⟩,
     ⟨now.year, now.month, now.date + daysUntilWeekday 0 now.weekday, 17⟩,
     80, "Most members are typically available"⟩,
    ⟨⟨now.year, now.month, now.date + daysUntilWeekday 2 now.weekday, 18⟩,
     ⟨now.year, now.month, now.date + daysUntilWeekday 2 now.weekday, 21⟩,
     70, "Some members might have conflicts"⟩ ]

/-- Handler for `GET /api/rehearsals/suggested-times`.
403 unless the caller holds an ACTIVE membership in the band; 200 with
the fixed suggestion list otherwise.  Nothing besides the membership
check reads the database. -/
def getSuggestedTimes (db : DB) (callerId bandId : String) (now : NowParts) :
    Resp (List Suggestion) × DB :=
  match db.bandMembers.find? (activeMemberOf bandId callerId) with
  | none =>
      (respErr 403 "You must be a band member to get suggested times" "Forbidden", db)
  | some _ => (respData 200 (suggestedTimes now), db)

/-! ## Concrete database states used to evaluate the handlers -/

/-- The empty database. -/
def emptyDB : DB := ⟨[], [], [], [], [], []⟩

/-- One registered user, no bands. -/
def loginExDB : DB :=
  ⟨[⟨"u1", "Alice", "alice@example.com", "h1"⟩], [], [], [], [], []⟩

/-- A user and a band the user is not a member of. -/
def c2ExDB : DB :=
  ⟨[⟨"u1", "Alice", "alice@example.com", "h1"⟩], [⟨"b1", "The Band"⟩],
   [], [], [], []⟩

/-- A rehearsal-creation request whose start is after its end. -/
def c2ExInput : RehearsalInput :=
  ⟨"b1", "Jam", none, 5, 3, "Garage", false, none⟩

/-- A valid rehearsal-creation request for band b1. -/
def c1ExInput : RehearsalInput :=
  ⟨"b1", "Jam", none, 3, 5, "Garage", false, none⟩

/-- A band with an active leader uA and a second user uC who has no
membership. -/
def inviteExDB : DB :=
  ⟨[⟨"uA", "Anna", "a@example.com", "h"⟩, ⟨"uC", "Cleo", "c@example.com", "h"⟩],
   [⟨"b1", "The Band"⟩],
   [⟨"bm1", "b1", "uA", "LEADER", "ACTIVE"⟩],
   [], [], []⟩

/-- A band with an active leader uL, an active plain member uM, and an
INACTIVE member uI. -/
def c6ExDB : DB :=
  ⟨[⟨"uL", "Lena", "l@example.com", "h"⟩, ⟨"uM", "Mona", "m@example.com", "h"⟩,
    ⟨"uI", "Iris", "i@example.com", "h"⟩],
   [⟨"b1", "The Band"⟩],
   [⟨"bm1", "b1", "uL", "LEADER", "ACTIVE"⟩,
    ⟨"bm2", "b1", "uM", "MEMBER", "ACTIVE"⟩,
    ⟨"bm3", "b1", "uI", "MEMBER", "INACTIVE"⟩],
   [], [], []⟩

/-- A band with two active leaders and an active plain member whose
attendance row for rehearsal r1 is PENDING. -/
def c8ExDB : DB :=
  ⟨[⟨"uL1", "Lena", "l1@example.com", "h"⟩, ⟨"uL2", "Lars", "l2@example.com", "h"⟩,
    ⟨"uM", "Mona", "m@example.com", "h"⟩],
   [⟨"b1", "The Band"⟩],
   [⟨"bm1", "b1", "uL1", "LEADER", "ACTIVE"⟩,
    ⟨"bm2", "b1", "uL2", "LEADER", "ACTIVE"⟩,
    ⟨"bm3", "b1", "uM", "MEMBER", "ACTIVE"⟩],
   [⟨"r1", "b1", "Jam", none, 0, 10, "Garage", false, none, "uL1"⟩],
   [⟨"a1", "r1", "uM", "PENDING", none, none, 0, none⟩],
   []⟩

/-- A band, a rehearsal of that band, and a user uX with no membership
anywhere. -/
def c5ExDB : DB :=
  ⟨[⟨"uX", "Xena", "x@example.com", "h"⟩, ⟨"uL", "Lena", "l@example.com", "h"⟩],
   [⟨"b1", "The Band"⟩],
   [⟨"bm1", "b1", "uL", "LEADER", "ACTIVE"⟩],
   [⟨"r1", "b1", "Jam", none, 0, 10, "Garage", false, none, "uL"⟩],
   [], []⟩

/-- Like c8ExDB, with a second attendance row (leader uL1) for the
same rehearsal. -/
def c10ExDB : DB :=
  ⟨[⟨"uL1", "Lena", "l1@example.com", "h"⟩, ⟨"uL2", "Lars", "l2@example.com", "h"⟩,
    ⟨"uM", "Mona", "m@example.com", "h"⟩],
   [⟨"b1", "The Band"⟩],
   [⟨"bm1", "b1", "uL1", "LEADER", "ACTIVE"⟩,
    ⟨"bm2", "b1", "uL2", "LEADER", "ACTIVE"⟩,
    ⟨"bm3", "b1", "uM", "MEMBER", "ACTIVE"⟩],
   [⟨"r1", "b1", "Jam", none, 0, 10, "Garage", false, none, "uL1"⟩],
   [⟨"a1", "r1", "uM", "PENDING", none, none, 0, none⟩,
    ⟨"a2", "r1", "uL1", "PENDING", none, none, 0, none⟩],
   []⟩

/-! ## Helper lemmas -/

theorem find?_append_of_none {α : Type} {p : α → Bool} {l1 : List α}
    (l2 : List α) (h : l1.find? p = none) :
    (l1 ++ l2).find? p = l2.find? p := by
  induction l1 with
  | nil => rfl
  | cons a l ih =>
      cases hpa : p a with
      | true => rw [List.find?_cons_of_pos _ hpa] at h; exact absurd h (by simp)
      | false =>
          have hpa' : ¬ p a = true := by simp [hpa]
          rw [List.find?_cons_of_neg _ hpa'] at h
          rw [List.cons_append, List.find?_cons_of_neg _ hpa']
          exact ih h

/-! ## Claim theorems -/

/-- C4: every failing login — unknown email or failed password-hash
comparison — produces the identical response: HTTP 401, success false,
the generic message "Invalid credentials" and error "Unauthorized",
with the database untouched; the two failure causes are therefore
indistinguishable to the caller. -/
theorem login_unauthorized_uniform (db : DB) (email password : String)
    (cmp : String → String → Bool) (jwtSecretSet : Bool)
    (h : db.users.find? (fun u => u.email == email) = none ∨
      ∃ u, db.users.find? (fun u => u.email == email) = some u ∧
        cmp password u.passwordHash = false) :
    login db email password cmp jwtSecretSet =
      (respErr 401 "Invalid credentials" "Unauthorized", db) := by
  unfold login
  rcases h with h | ⟨u, hu, hcmp⟩
  · rw [h]
  · rw [hu]
    simp [hcmp]

/-- Witness for C4: logging in with an email absent from the user
table yields the generic 401 response. -/
theorem login_unauthorized_uniform_witness :
    login loginExDB "bob@example.com" "pw" (fun _ _ => true) true =
      (respErr 401 "Invalid credentials" "Unauthorized", loginExDB) :=
  login_unauthorized_uniform loginExDB "bob@example.com" "pw" (fun _ _ => true) true
    (Or.inl (by decide))

/-- C7: registering with an email already present answers 409 Conflict
and leaves the user table unchanged; registering with a fresh email
succeeds with 201 and appends exactly the new user row, after which a
second registration with the same email answers 409. -/
theorem register_twice_conflict (db : DB)
    (email ph name nid ph2 name2 nid2 : String) (s2 : Bool) :
    ((∃ u ∈ db.users, u.email = email) →
      register db email ph name nid true =
        (respErr 409 "User with this email already exists" "Conflict", db)) ∧
    ((∀ u ∈ db.users, u.email ≠ email) →
      (register db email ph name nid true).1 =
          respOk 201 "User registered successfully" nid ∧
        (register db email ph name nid true).2.users =
          db.users ++ [⟨nid, name, email, ph⟩] ∧
        (register (register db email ph name nid true).2 email ph2 name2 nid2 s2).1 =
          respErr 409 "User with this email already exists" "Conflict") := by
  constructor
  · rintro ⟨u, hu, he⟩
    have hs : (db.users.find? (fun v => v.email == email)).isSome := by
      rw [List.find?_isSome]
      exact ⟨u, hu, by simp [he]⟩
    cases hf : db.users.find? (fun v => v.email == email) with
    | none => rw [hf] at hs; simp at hs
    | some v => unfold register; rw [hf]
  · intro hall
    have hf : db.users.find? (fun v => v.email == email) = none := by
      rw [List.find?_eq_none]
      intro v hv
      simp [hall v hv]
    have h1 : register db email ph name nid true =
        (respOk 201 "User registered successfully" nid,
         { db with users := db.users ++ [⟨nid, name, email, ph⟩] }) := by
      unfold register; rw [hf]; rfl
    refine ⟨by rw [h1], by rw [h1], ?_⟩
    rw [h1]
    have hf2 : (db.users ++ [(⟨nid, name, email, ph⟩ : User)]).find?
        (fun v => v.email == email) = some ⟨nid, name, email, ph⟩ := by
      rw [find?_append_of_none _ hf]
      simp [List.find?_cons_of_pos]
    unfold register
    rw [hf2]

/-- Witness for C7: a fresh registration on the empty database answers
201 and stores the user; repeating it with the same email answers 409;
registering an email that is already stored answers 409. -/
theorem register_twice_conflict_witness :
    ((register emptyDB "a@example.com" "h" "A" "u1" true).1 =
        respOk 201 "User registered successfully" "u1" ∧
      (register emptyDB "a@example.com" "h" "A" "u1" true).2.users =
        emptyDB.users ++ [⟨"u1", "A", "a@example.com", "h"⟩] ∧
      (register (register emptyDB "a@example.com" "h" "A" "u1" true).2
          "a@example.com" "h2" "B" "u2" true).1 =
        respErr 409 "User with this email already exists" "Conflict") ∧
    register loginExDB "alice@example.com" "h" "A" "u9" true =
      (respErr 409 "User with this email already exists" "Conflict", loginExDB) :=
  ⟨(register_twice_conflict emptyDB "a@example.com" "h" "A" "u1" "h2" "B" "u2" true).2
      (by intro u hu; simp [emptyDB] at hu),
   (register_twice_conflict loginExDB "alice@example.com" "h" "A" "u9" "x" "y" "z" true).1
      ⟨⟨"u1", "Alice", "alice@example.com", "h1"⟩, by decide, rfl⟩⟩

/-- C6: band-member invitation policy.  Without an ACTIVE LEADER
membership the caller gets 403 and nothing changes; when the target
user exists and already holds a membership whose status is not
INACTIVE the request fails 409 and nothing changes; when the target's
existing membership is INACTIVE it is reactivated — status set to
ACTIVE (and the role to the requested one) — answered 200 instead of
an error. -/
theorem addBandMember_policy (db : DB)
    (callerId bandId email role newMemberId : String) :
    ((∀ m ∈ db.bandMembers, activeLeaderOf bandId callerId m = false) →
      addBandMember db callerId bandId email role newMemberId =
        (respErr 403 "Only band leaders can add members" "Forbidden", db)) ∧
    (∀ u em,
      (db.bandMembers.find? (activeLeaderOf bandId callerId)).isSome →
      db.users.find? (fun v => v.email == email) = some u →
      db.bandMembers.find? (memberOf bandId u.id) = some em →
      ((em.status ≠ "INACTIVE" →
          addBandMember db callerId bandId email role newMemberId =
            (respErr 409 "User is already a member of this band" "Conflict", db)) ∧
        (em.status = "INACTIVE" →
          (addBandMember db callerId bandId email role newMemberId).1 =
              respOk 200 "Member reactivated successfully"
                { em with status := "ACTIVE", role := role } ∧
            (addBandMember db callerId bandId email role newMemberId).2.bandMembers =
              db.bandMembers.map (fun m =>
                if m.id == em.id then { em with status := "ACTIVE", role := role }
                else m)))) := by
  constructor
  · intro h
    have hf : db.bandMembers.find? (activeLeaderOf bandId callerId) = none := by
      rw [List.find?_eq_none]
      intro m hm
      simp [h m hm]
    unfold addBandMember
    rw [hf]
  · intro u em hL hu hm
    obtain ⟨lm, hlm⟩ := Option.isSome_iff_exists.mp hL
    constructor
    · intro hst
      have hb : (em.status == "INACTIVE") = false := by
        simp [hst]
      unfold addBandMember
      simp [hlm, hu, hm, hb]
    · intro hst
      unfold addBandMember
      simp [hlm, hu, hm, hst]

/-- Witness for C6: in a band with leader uL, active member uM and
inactive member uI — a non-leader caller gets 403; inviting the
already-active uM gets 409; inviting the inactive uI reactivates the
membership with 200. -/
theorem addBandMember_policy_witness :
    addBandMember c6ExDB "uM" "b1" "i@example.com" "MEMBER" "bm9" =
        (respErr 403 "Only band leaders can add members" "Forbidden", c6ExDB) ∧
      addBandMember c6ExDB "uL" "b1" "m@example.com" "MEMBER" "bm9" =
        (respErr 409 "User is already a member of this band" "Conflict", c6ExDB) ∧
      ((addBandMember c6ExDB "uL" "b1" "i@example.com" "MEMBER" "bm9").1 =
          respOk 200 "Member reactivated successfully"
            ⟨"bm3", "b1", "uI", "MEMBER", "ACTIVE"⟩ ∧
        (addBandMember c6ExDB "uL" "b1" "i@example.com" "MEMBER" "bm9").2.bandMembers =
          [⟨"bm1", "b1", "uL", "LEADER", "ACTIVE"⟩,
           ⟨"bm2", "b1", "uM", "MEMBER", "ACTIVE"⟩,
           ⟨"bm3", "b1", "uI", "MEMBER", "ACTIVE"⟩]) := by
  refine ⟨?_, ?_, ?_⟩
  · exact (addBandMember_policy c6ExDB "uM" "b1" "i@example.com" "MEMBER" "bm9").1
      (by decide)
  · exact (addBandMember_policy c6ExDB "uL" "b1" "m@example.com" "MEMBER" "bm9").2
      ⟨"uM", "Mona", "m@example.com", "h"⟩ ⟨"bm2", "b1", "uM", "MEMBER", "ACTIVE"⟩
      (by decide) (by decide) (by decide) |>.1 (by decide)
  · have h := (addBandMember_policy c6ExDB "uL" "b1" "i@example.com" "MEMBER" "bm9").2
      ⟨"uI", "Iris", "i@example.com", "h"⟩ ⟨"bm3", "b1", "uI", "MEMBER", "INACTIVE"⟩
      (by decide) (by decide) (by decide) |>.2 rfl
    exact ⟨h.1, by rw [h.2]; decide⟩

/-- C3 counterexample: when the active leader uA of band b1 invites
uC — who has no prior membership — the created membership row has
status ACTIVE, not INVITED and not PENDING. -/
theorem invite_status_counterexample :
    ((addBandMember inviteExDB "uA" "b1" "c@example.com" "MEMBER" "bm2").2.bandMembers.find?
        (memberOf "b1" "uC")).map (fun m => m.status) = some "ACTIVE" ∧
      ("ACTIVE" : String) ≠ "INVITED" ∧ ("ACTIVE" : String) ≠ "PENDING" := by
  exact ⟨by decide, by decide, by decide⟩

/-- C3 amended: when an active leader invites a user with no prior
membership in the band, the created membership row has status ACTIVE
immediately — the invited user is a full member at once, with no
INVITED/pending phase. -/
theorem invite_creates_active_membership (db : DB)
    (callerId bandId email role newMemberId : String) (u : User)
    (hL : (db.bandMembers.find? (activeLeaderOf bandId callerId)).isSome)
    (hu : db.users.find? (fun v => v.email == email) = some u)
    (hm : db.bandMembers.find? (memberOf bandId u.id) = none) :
    (addBandMember db callerId bandId email role newMemberId).1 =
        respOk 201 "Member added successfully"
          ⟨newMemberId, bandId, u.id, role, "ACTIVE"⟩ ∧
      (addBandMember db callerId bandId email role newMemberId).2.bandMembers =
        db.bandMembers ++ [⟨newMemberId, bandId, u.id, role, "ACTIVE"⟩] := by
  obtain ⟨lm, hlm⟩ := Option.isSome_iff_exists.mp hL
  unfold addBandMember
  simp [hlm, hu, hm]

/-- Witness for C3 (amended): the concrete invitation of uC appends a
membership row with status ACTIVE. -/
theorem invite_creates_active_membership_witness :
    (addBandMember inviteExDB "uA" "b1" "c@example.com" "MEMBER" "bm2").1 =
        respOk 201 "Member added successfully"
          ⟨"bm2", "b1", "uC", "MEMBER", "ACTIVE"⟩ ∧
      (addBandMember inviteExDB "uA" "b1" "c@example.com" "MEMBER" "bm2").2.bandMembers =
        inviteExDB.bandMembers ++ [⟨"bm2", "b1", "uC", "MEMBER", "ACTIVE"⟩] :=
  invite_creates_active_membership inviteExDB "uA" "b1" "c@example.com" "MEMBER" "bm2"
    ⟨"uC", "Cleo", "c@example.com", "h"⟩ (by decide) (by decide) (by decide)

/-- A membership that is ACTIVE is in particular a membership. -/
theorem memberOf_of_activeMemberOf {bandId userId : String} {m : BandMember}
    (h : activeMemberOf bandId userId m = true) : memberOf bandId userId m = true := by
  simp only [activeMemberOf, memberOf, Bool.and_eq_true] at *
  exact h.1

/-- C5: a caller who holds no membership row at all in a band receives
403 or 404 — and never the resource body — when requesting that band
by id, and when requesting any rehearsal owned by that band by id, in
both rehearsal-route variants. -/
theorem non_member_never_sees_resource (db : DB)
    (callerId bandId rehearsalId : String)
    (hband : ∀ m ∈ db.bandMembers, memberOf bandId callerId m = false)
    (hreh : ∀ r ∈ db.rehearsals, r.id = rehearsalId →
      ∀ m ∈ db.bandMembers, memberOf r.bandId callerId m = false) :
    (((getBandById db callerId bandId).1.status = 403 ∨
        (getBandById db callerId bandId).1.status = 404) ∧
      (getBandById db callerId bandId).1.data = none) ∧
    (((getRehearsalByIdA db callerId rehearsalId).1.status = 403 ∨
        (getRehearsalByIdA db callerId rehearsalId).1.status = 404) ∧
      (getRehearsalByIdA db callerId rehearsalId).1.data = none) ∧
    (((getRehearsalByIdB db callerId rehearsalId).1.status = 403 ∨
        (getRehearsalByIdB db callerId rehearsalId).1.status = 404) ∧
      (getRehearsalByIdB db callerId rehearsalId).1.data = none) := by
  refine ⟨?_, ?_, ?_⟩
  · unfold getBandById
    cases hb : db.bands.find? (fun b => b.id == bandId) with
    | none => simp [respErr]
    | some band =>
        have hany : db.bandMembers.any (activeMemberOf bandId callerId) = false := by
          rw [List.any_eq_false]
          intro m hm hc
          have := memberOf_of_activeMemberOf hc
          rw [hband m hm] at this
          exact Bool.false_ne_true this
        simp [hb, hany, respErr]
  · unfold getRehearsalByIdA
    cases hr : db.rehearsals.find? (fun r => r.id == rehearsalId) with
    | none => simp [respErr]
    | some r =>
        have hrid : r.id = rehearsalId := by
          have := List.find?_some hr
          simpa using this
        have hrm : r ∈ db.rehearsals := List.mem_of_find?_eq_some hr
        have hfil : db.bandMembers.filter (activeMemberOf r.bandId callerId) = [] := by
          rw [List.filter_eq_nil_iff]
          intro m hm hc
          have := memberOf_of_activeMemberOf hc
          rw [hreh r hrm hrid m hm] at this
          exact Bool.false_ne_true this
        simp [hr, hfil, respErr]
  · unfold getRehearsalByIdB
    cases hr : db.rehearsals.find? (fun r => r.id == rehearsalId) with
    | none => simp [respErr]
    | some r =>
        have hrid : r.id = rehearsalId := by
          have := List.find?_some hr
          simpa using this
        have hrm : r ∈ db.rehearsals := List.mem_of_find?_eq_some hr
        have hnone : db.bandMembers.find? (memberOf r.bandId callerId) = none := by
          rw [List.find?_eq_none]
          intro m hm hc
          rw [hreh r hrm hrid m hm] at hc
          exact Bool.false_ne_true hc
        simp [hr, hnone, respErr]

/-- Witness for C5: uX, who has no membership anywhere, requests band
b1 and its rehearsal r1; all three handlers refuse with 403/404 and an
empty body. -/
theorem non_member_never_sees_resource_witness :
    (((getBandById c5ExDB "uX" "b1").1.status = 403 ∨
        (getBandById c5ExDB "uX" "b1").1.status = 404) ∧
      (getBandById c5ExDB "uX" "b1").1.data = none) ∧
    (((getRehearsalByIdA c5ExDB "uX" "r1").1.status = 403 ∨
        (getRehearsalByIdA c5ExDB "uX" "r1").1.status = 404) ∧
      (getRehearsalByIdA c5ExDB "uX" "r1").1.data = none) ∧
    (((getRehearsalByIdB c5ExDB "uX" "r1").1.status = 403 ∨
        (getRehearsalByIdB c5ExDB "uX" "r1").1.status = 404) ∧
      (getRehearsalByIdB c5ExDB "uX" "r1").1.data = none) :=
  non_member_never_sees_resource c5ExDB "uX" "b1" "r1" (by decide) (by decide)

/-- C2 counterexample: in variant A the membership check runs before
the time validation, so a caller without an ACTIVE membership sending
start ≥ end receives 403, not 400. -/
theorem time_validation_counterexample :
    c2ExInput.startDatetime ≥ c2ExInput.endDatetime ∧
      (createRehearsalA c2ExDB "u1" c2ExInput "r1" (fun _ => "a1") 0).1.status = 403 ∧
      ¬(createRehearsalA c2ExDB "u1" c2ExInput "r1" (fun _ => "a1") 0).1.status = 400 := by
  exact ⟨by decide, by decide, by decide⟩

/-- C2 amended: a rehearsal-creation request with start ≥ end fails
with 400 Bad Request in variant B regardless of the caller's
membership; in variant A it fails with 400 when the caller holds an
ACTIVE membership in the band, and with 403 otherwise (the membership
check runs first there). -/
theorem start_not_before_end_rejected (db : DB) (callerId : String)
    (inp : RehearsalInput) (newId : String) (attId : Nat → String) (now : Int)
    (hts : inp.startDatetime ≥ inp.endDatetime) :
    createRehearsalB db callerId inp newId attId now =
        (respErr 400 "Start time must be before end time" "Bad Request", db) ∧
      ((db.bandMembers.find? (activeMemberOf inp.bandId callerId)).isSome →
        createRehearsalA db callerId inp newId attId now =
          (respErr 400 "End time must be after start time" "Bad Request", db)) ∧
      ((∀ m ∈ db.bandMembers, activeMemberOf inp.bandId callerId m = false) →
        createRehearsalA db callerId inp newId attId now =
          (respErr 403 "You must be a band member to create rehearsals" "Forbidden", db)) := by
  refine ⟨?_, ?_, ?_⟩
  · unfold createRehearsalB
    simp [hts]
  · intro h
    obtain ⟨m, hm⟩ := Option.isSome_iff_exists.mp h
    unfold createRehearsalA
    simp [hm, hts]
  · intro h
    have hf : db.bandMembers.find? (activeMemberOf inp.bandId callerId) = none := by
      rw [List.find?_eq_none]
      intro m hm
      simp [h m hm]
    unfold createRehearsalA
    rw [hf]

/-- Witness for C2 (amended): start 5 ≥ end 3 — variant B answers 400
for the non-member u1; variant A answers 400 for the active member uM
and 403 for the non-member u1. -/
theorem start_not_before_end_rejected_witness :
    createRehearsalB c2ExDB "u1" c2ExInput "r1" (fun _ => "a1") 0 =
        (respErr 400 "Start time must be before end time" "Bad Request", c2ExDB) ∧
      createRehearsalA c8ExDB "uM" c2ExInput "r1" (fun _ => "a1") 0 =
        (respErr 400 "End time must be after start time" "Bad Request", c8ExDB) ∧
      createRehearsalA c2ExDB "u1" c2ExInput "r1" (fun _ => "a1") 0 =
        (respErr 403 "You must be a band member to create rehearsals" "Forbidden", c2ExDB) :=
  ⟨(start_not_before_end_rejected c2ExDB "u1" c2ExInput "r1" (fun _ => "a1") 0
      (by decide)).1,
   (start_not_before_end_rejected c8ExDB "uM" c2ExInput "r1" (fun _ => "a1") 0
      (by decide)).2.1 (by decide),
   (start_not_before_end_rejected c2ExDB "u1" c2ExInput "r1" (fun _ => "a1") 0
      (by decide)).2.2 (by decide)⟩

/-- Every row the bulk insert builds carries the rehearsal id it was
built for, so filtering on that id keeps all of them. -/
theorem mkAttendanceRows_filter (attId : Nat → String) (rid st : String)
    (now : Int) (i : Nat) (ms : List BandMember) :
    (mkAttendanceRows attId rid st now i ms).filter (fun a => a.rehearsalId == rid) =
      mkAttendanceRows attId rid st now i ms := by
  induction ms generalizing i with
  | nil => rfl
  | cons m ms ih => simp [mkAttendanceRows, List.filter, ih]

/-- The bulk insert produces one row per member, carrying that
member's user id and the given status. -/
theorem mkAttendanceRows_map (attId : Nat → String) (rid st : String)
    (now : Int) (i : Nat) (ms : List BandMember) :
    (mkAttendanceRows attId rid st now i ms).map (fun a => (a.userId, a.status)) =
      ms.map (fun m => (m.userId, st)) := by
  induction ms generalizing i with
  | nil => rfl
  | cons m ms ih => simp [mkAttendanceRows, ih]

/-- The bulk insert produces exactly as many rows as members. -/
theorem mkAttendanceRows_length (attId : Nat → String) (rid st : String)
    (now : Int) (i : Nat) (ms : List BandMember) :
    (mkAttendanceRows attId rid st now i ms).length = ms.length := by
  induction ms generalizing i with
  | nil => rfl
  | cons m ms ih => simp [mkAttendanceRows, ih]

/-- C1: a successful rehearsal creation (201), in either route
variant, creates exactly one attendance row per ACTIVE member of the
band — the rows for the new rehearsal correspond one-to-one, in order,
to the ACTIVE membership rows, each with status PENDING — provided the
generated rehearsal id is fresh. -/
theorem createRehearsal_pending_attendance (db : DB) (callerId : String)
    (inp : RehearsalInput) (newId : String) (attId : Nat → String) (now : Int)
    (hfresh : ∀ a ∈ db.attendances, a.rehearsalId ≠ newId) :
    ((createRehearsalA db callerId inp newId attId now).1.status = 201 →
      ((createRehearsalA db callerId inp newId attId now).2.attendances.filter
          (fun a => a.rehearsalId == newId)).map (fun a => (a.userId, a.status)) =
        (db.bandMembers.filter (activeInBand inp.bandId)).map
          (fun m => (m.userId, "PENDING")) ∧
      ((createRehearsalA db callerId inp newId attId now).2.attendances.filter
          (fun a => a.rehearsalId == newId)).length =
        (db.bandMembers.filter (activeInBand inp.bandId)).length) ∧
    ((createRehearsalB db callerId inp newId attId now).1.status = 201 →
      ((createRehearsalB db callerId inp newId attId now).2.attendances.filter
          (fun a => a.rehearsalId == newId)).map (fun a => (a.userId, a.status)) =
        (db.bandMembers.filter (activeInBand inp.bandId)).map
          (fun m => (m.userId, "PENDING")) ∧
      ((createRehearsalB db callerId inp newId attId now).2.attendances.filter
          (fun a => a.rehearsalId == newId)).length =
        (db.bandMembers.filter (activeInBand inp.bandId)).length) := by
  have hold : db.attendances.filter (fun a => a.rehearsalId == newId) = [] := by
    rw [List.filter_eq_nil_iff]
    intro a ha
    simp [hfresh a ha]
  constructor
  · cases hm : db.bandMembers.find? (activeMemberOf inp.bandId callerId) with
    | none =>
        intro h
        simp only [createRehearsalA, hm] at h
        simp [respErr] at h
    | some m =>
        by_cases hts : inp.startDatetime ≥ inp.endDatetime
        · intro h
          simp only [createRehearsalA, hm, if_pos hts] at h
          simp [respErr] at h
        · intro _
          simp only [createRehearsalA, hm, if_neg hts]
          rw [List.filter_append, hold, List.nil_append, mkAttendanceRows_filter]
          exact ⟨mkAttendanceRows_map attId newId "PENDING" now 0 _,
            by rw [mkAttendanceRows_length]⟩
  · by_cases hts : inp.startDatetime ≥ inp.endDatetime
    · intro h
      simp only [createRehearsalB, if_pos hts] at h
      simp [respErr] at h
    · cases hm : db.bandMembers.find? (leaderOf inp.bandId callerId) with
      | none =>
          intro h
          simp only [createRehearsalB, if_neg hts, hm] at h
          simp [respErr] at h
      | some m =>
          intro _
          simp only [createRehearsalB, if_neg hts, hm]
          rw [List.filter_append, hold, List.nil_append, mkAttendanceRows_filter]
          refine ⟨?_, ?_⟩
          · rw [mkAttendanceRows_map]
            rfl
          · rw [mkAttendanceRows_length]

/-- Witness for C1: leader uL1 creates a rehearsal for band b1, which
has three ACTIVE members; in both variants the three created rows are
(uL1, PENDING), (uL2, PENDING), (uM, PENDING). -/
theorem createRehearsal_pending_attendance_witness :
    (((createRehearsalA c8ExDB "uL1" c1ExInput "r2" (fun _ => "a9") 0).2.attendances.filter
        (fun a => a.rehearsalId == "r2")).map (fun a => (a.userId, a.status)) =
      (c8ExDB.bandMembers.filter (activeInBand c1ExInput.bandId)).map
        (fun m => (m.userId, "PENDING")) ∧
     ((createRehearsalA c8ExDB "uL1" c1ExInput "r2" (fun _ => "a9") 0).2.attendances.filter
        (fun a => a.rehearsalId == "r2")).length =
      (c8ExDB.bandMembers.filter (activeInBand c1ExInput.bandId)).length) ∧
    (((createRehearsalB c8ExDB "uL1" c1ExInput "r2" (fun _ => "a9") 0).2.attendances.filter
        (fun a => a.rehearsalId == "r2")).map (fun a => (a.userId, a.status)) =
      (c8ExDB.bandMembers.filter (activeInBand c1ExInput.bandId)).map
        (fun m => (m.userId, "PENDING")) ∧
     ((createRehearsalB c8ExDB "uL1" c1ExInput "r2" (fun _ => "a9") 0).2.attendances.filter
        (fun a => a.rehearsalId == "r2")).length =
      (c8ExDB.bandMembers.filter (activeInBand c1ExInput.bandId)).length) :=
  ⟨(createRehearsal_pending_attendance c8ExDB "uL1" c1ExInput "r2" (fun _ => "a9") 0
      (by decide)).1 (by decide),
   (createRehearsal_pending_attendance c8ExDB "uL1" c1ExInput "r2" (fun _ => "a9") 0
      (by decide)).2 (by decide)⟩

/-- C9: the suggested-times generator is a pure function of the
current date: it always produces exactly three entries, every
successful response carries exactly `suggestedTimes now`, and two
successful responses computed at the same `now` coincide — whatever
the database, the band, its members or any stored data. -/
theorem suggested_times_deterministic (now : NowParts) :
    (suggestedTimes now).length = 3 ∧
    (∀ db callerId bandId,
      (getSuggestedTimes db callerId bandId now).1.status = 200 →
      (getSuggestedTimes db callerId bandId now).1 =
        respData 200 (suggestedTimes now)) ∧
    (∀ dbA cA bA dbB cB bB,
      (getSuggestedTimes dbA cA bA now).1.status = 200 →
      (getSuggestedTimes dbB cB bB now).1.status = 200 →
      (getSuggestedTimes dbA cA bA now).1 = (getSuggestedTimes dbB cB bB now).1) := by
  have aux : ∀ db c b, (getSuggestedTimes db c b now).1.status = 200 →
      (getSuggestedTimes db c b now).1 = respData 200 (suggestedTimes now) := by
    intro db c b h
    unfold getSuggestedTimes at h ⊢
    cases hm : db.bandMembers.find? (activeMemberOf b c) with
    | none => rw [hm] at h; simp [respErr] at h
    | some m => rfl
  refine ⟨rfl, aux, ?_⟩
  intro dbA cA bA dbB cB bB hA hB
  rw [aux dbA cA bA hA, aux dbB cB bB hB]

/-- Witness for C9: at the fixed date 2025-06-15 (weekday 4) the
generator returns its three entries, active member uM receives exactly
them, and the responses for two different callers coincide. -/
theorem suggested_times_deterministic_witness :
    (suggestedTimes ⟨2025, 5, 15, 4⟩).length = 3 ∧
      (getSuggestedTimes c8ExDB "uM" "b1" ⟨2025, 5, 15, 4⟩).1 =
        respData 200 (suggestedTimes ⟨2025, 5, 15, 4⟩) ∧
      (getSuggestedTimes c8ExDB "uL1" "b1" ⟨2025, 5, 15, 4⟩).1 =
        (getSuggestedTimes c8ExDB "uM" "b1" ⟨2025, 5, 15, 4⟩).1 :=
  ⟨(suggested_times_deterministic ⟨2025, 5, 15, 4⟩).1,
   (suggested_times_deterministic ⟨2025, 5, 15, 4⟩).2.1 c8ExDB "uM" "b1" (by decide),
   (suggested_times_deterministic ⟨2025, 5, 15, 4⟩).2.2 c8ExDB "uL1" "b1"
     c8ExDB "uM" "b1" (by decide) (by decide)⟩

/-- C8 counterexample: band b1 has two ACTIVE leaders uL1 and uL2;
when member uM sets NOT_ATTENDING through the PUT variant the update
succeeds, yet uL2 receives no notification — only the first-found
leader is notified, so not every active leader is. -/
theorem declined_notification_counterexample :
    (updateAttendancePut c8ExDB "uM" "Mona" "r1" "NOT_ATTENDING" none 5).1.status = 200 ∧
      (c8ExDB.bandMembers.filter (fun m =>
          activeLeaderInBand "b1" m && m.userId != "uM")).length = 2 ∧
      ((updateAttendancePut c8ExDB "uM" "Mona" "r1" "NOT_ATTENDING" none 5).2.notifications.filter
          (fun n => n.userId == "uL2")).length = 0 := by
  exact ⟨by decide, by decide, by decide⟩

/-- C8 amended: when a member reports non-attendance, the PUT variant
notifies at most one person — exactly the first-found ACTIVE LEADER of
the band, when that leader is not the updating user — while the POST
variant notifies every LEADER of the band (any status, hence in
particular every active leader) other than the updating user; in both
variants any other status adds no notification. -/
theorem attendance_notification_policy (db : DB)
    (callerId callerName rehearsalId status : String)
    (comment reason : Option String) (now : Int) :
    ((updateAttendancePut db callerId callerName rehearsalId status
        comment now).2.notifications.length ≤ db.notifications.length + 1) ∧
    (∀ att reh ldr,
      db.attendances.find? (attendanceOf rehearsalId callerId) = some att →
      db.rehearsals.find? (fun r => r.id == att.rehearsalId) = some reh →
      db.bandMembers.find? (activeLeaderInBand reh.bandId) = some ldr →
      ldr.userId ≠ callerId →
      status = "NOT_ATTENDING" →
      (updateAttendancePut db callerId callerName rehearsalId status
          comment now).2.notifications =
        db.notifications ++
          [⟨ldr.userId, "ATTENDANCE_UPDATE",
            callerName ++ " cannot attend " ++ reh.title, some rehearsalId⟩]) ∧
    (status ≠ "NOT_ATTENDING" →
      (updateAttendancePut db callerId callerName rehearsalId status
          comment now).2.notifications = db.notifications) ∧
    (∀ att reh,
      db.attendances.find? (attendanceOf rehearsalId callerId) = some att →
      db.rehearsals.find? (fun r => r.id == att.rehearsalId) = some reh →
      status = "DECLINED" →
      (updateAttendancePost db callerId rehearsalId status
          reason now).2.notifications.map (fun n => n.userId) =
        db.notifications.map (fun n => n.userId) ++
          ((db.bandMembers.filter (leaderInBand reh.bandId)).filter
              (fun l => l.userId != callerId)).map (fun l => l.userId)) ∧
    (status ≠ "DECLINED" →
      (updateAttendancePost db callerId rehearsalId status
          reason now).2.notifications = db.notifications) := by
  refine ⟨?_, ?_, ?_, ?_, ?_⟩
  · unfold updateAttendancePut
    cases hm : db.attendances.find? (attendanceOf rehearsalId callerId) with
    | none => simp
    | some att =>
        by_cases hst : (status == "NOT_ATTENDING") = true
        · simp only [hst, if_true]
          cases hr : db.rehearsals.find? (fun r => r.id == att.rehearsalId) with
          | none => simp
          | some reh =>
              cases hl : db.bandMembers.find? (activeLeaderInBand reh.bandId) with
              | none => simp [hl]
              | some ldr =>
                  by_cases hne : (ldr.userId != callerId) = true
                  · simp [hl, hne]
                  · simp [hl, hne]
        · simp [hst]
  · intro att reh ldr h1 h2 h3 hne hst
    subst hst
    have hne' : (ldr.userId != callerId) = true := by
      simp [hne]
    unfold updateAttendancePut
    simp [h1, h2, h3, hne']
  · intro hst
    have hb : (status == "NOT_ATTENDING") = false := by
      simp [hst]
    unfold updateAttendancePut
    cases hm : db.attendances.find? (attendanceOf rehearsalId callerId) with
    | none => rfl
    | some att => simp [hb]
  · intro att reh h1 h2 hst
    subst hst
    unfold updateAttendancePost
    simp [h1, h2, List.map_map]
  · intro hst
    have hb : (status == "DECLINED") = false := by
      simp [hst]
    unfold updateAttendancePost
    cases hm : db.attendances.find? (attendanceOf rehearsalId callerId) with
    | none => rfl
    | some att => simp [hb]

/-- Witness for C8 (amended): for the concrete band with two active
leaders — the PUT update by uM to NOT_ATTENDING adds exactly the
notification to first-found leader uL1; a MAYBE update adds none; the
POST update to DECLINED notifies exactly uL1 and uL2; a CONFIRMED
update adds none; and the at-most-one bound holds. -/
theorem attendance_notification_policy_witness :
    ((updateAttendancePut c8ExDB "uM" "Mona" "r1" "NOT_ATTENDING" none
        5).2.notifications.length ≤ c8ExDB.notifications.length + 1) ∧
    ((updateAttendancePut c8ExDB "uM" "Mona" "r1" "NOT_ATTENDING" none
        5).2.notifications =
      c8ExDB.notifications ++
        [⟨"uL1", "ATTENDANCE_UPDATE", "Mona cannot attend Jam", some "r1"⟩]) ∧
    ((updateAttendancePut c8ExDB "uM" "Mona" "r1" "MAYBE" none
        5).2.notifications = c8ExDB.notifications) ∧
    ((updateAttendancePost c8ExDB "uM" "r1" "DECLINED" none
        5).2.notifications.map (fun n => n.userId) =
      c8ExDB.notifications.map (fun n => n.userId) ++
        ((c8ExDB.bandMembers.filter (leaderInBand "b1")).filter
            (fun l => l.userId != "uM")).map (fun l => l.userId)) ∧
    ((updateAttendancePost c8ExDB "uM" "r1" "CONFIRMED" none
        5).2.notifications = c8ExDB.notifications) :=
  ⟨(attendance_notification_policy c8ExDB "uM" "Mona" "r1" "NOT_ATTENDING"
      none none 5).1,
   (attendance_notification_policy c8ExDB "uM" "Mona" "r1" "NOT_ATTENDING"
      none none 5).2.1
      ⟨"a1", "r1", "uM", "PENDING", none, none, 0, none⟩
      ⟨"r1", "b1", "Jam", none, 0, 10, "Garage", false, none, "uL1"⟩
      ⟨"bm1", "b1", "uL1", "LEADER", "ACTIVE"⟩
      (by decide) (by decide) (by decide) (by decide) rfl,
   (attendance_notification_policy c8ExDB "uM" "Mona" "r1" "MAYBE"
      none none 5).2.2.1 (by decide),
   (attendance_notification_policy c8ExDB "uM" "Mona" "r1" "DECLINED"
      none none 5).2.2.2.1
      ⟨"a1", "r1", "uM", "PENDING", none, none, 0, none⟩
      ⟨"r1", "b1", "Jam", none, 0, 10, "Garage", false, none, "uL1"⟩
      (by decide) (by decide) rfl,
   (attendance_notification_policy c8ExDB "uM" "Mona" "r1" "CONFIRMED"
      none none 5).2.2.2.2 (by decide)⟩

/-- When the caller has no attendance row the PUT variant answers 404
with the database unchanged. -/
theorem updateAttendancePut_notFound (db : DB)
    (callerId callerName rehearsalId status : String)
    (comment : Option String) (now : Int)
    (hm : db.attendances.find? (attendanceOf rehearsalId callerId) = none) :
    updateAttendancePut db callerId callerName rehearsalId status comment now =
      (respErr 404 "Attendance record not found" "Not Found", db) := by
  unfold updateAttendancePut
  rw [hm]

/-- When the caller has no attendance row the POST variant answers 404
with the database unchanged. -/
theorem updateAttendancePost_notFound (db : DB)
    (callerId rehearsalId status : String) (reason : Option String) (now : Int)
    (hm : db.attendances.find? (attendanceOf rehearsalId callerId) = none) :
    updateAttendancePost db callerId rehearsalId status reason now =
      (respErr 404 "Attendance record not found" "Not Found", db) := by
  unfold updateAttendancePost
  rw [hm]

/-- Whatever branch the PUT attendance handler takes after finding the
caller's row, the successor state differs from the original only in
the attendance list — one row replaced through applyAttendanceUpdate —
and the notification list. -/
theorem updateAttendancePut_state (db : DB)
    (callerId callerName rehearsalId status : String)
    (comment : Option String) (now : Int) (att : RehearsalAttendance)
    (hm : db.attendances.find? (attendanceOf rehearsalId callerId) = some att) :
    ∃ notifs,
      (updateAttendancePut db callerId callerName rehearsalId status comment now).2 =
        { db with
          attendances := applyAttendanceUpdate db.attendances att.id (putUpdatedRow att status comment now),
          notifications := notifs } := by
  unfold updateAttendancePut
  simp only [hm]
  by_cases hst : (status == "NOT_ATTENDING") = true
  · simp only [hst, if_true]
    cases hr : db.rehearsals.find? (fun r => r.id == att.rehearsalId) with
    | none => exact ⟨db.notifications, by simp [hr]⟩
    | some reh =>
        cases hl : db.bandMembers.find? (activeLeaderInBand reh.bandId) with
        | none => exact ⟨db.notifications, by simp [hr, hl]⟩
        | some ldr =>
            by_cases hne : (ldr.userId != callerId) = true
            · refine ⟨db.notifications ++
                [⟨ldr.userId, "ATTENDANCE_UPDATE",
                  callerName ++ " cannot attend " ++ reh.title, some rehearsalId⟩], ?_⟩
              simp [hr, hl, hne]
            · exact ⟨db.notifications, by simp [hr, hl, hne]⟩
  · simp only [Bool.not_eq_true] at hst
    exact ⟨db.notifications, by simp [hst]⟩

/-- Whatever branch the POST attendance handler takes after finding
the caller's row, the successor state differs from the original only
in the attendance list — one row replaced through
applyAttendanceUpdate — and the notification list. -/
theorem updateAttendancePost_state (db : DB)
    (callerId rehearsalId status : String) (reason : Option String) (now : Int)
    (att : RehearsalAttendance)
    (hm : db.attendances.find? (attendanceOf rehearsalId callerId) = some att) :
    ∃ notifs,
      (updateAttendancePost db callerId rehearsalId status reason now).2 =
        { db with
          attendances := applyAttendanceUpdate db.attendances att.id (postUpdatedRow att status reason now),
          notifications := notifs } := by
  unfold updateAttendancePost
  simp only [hm]
  by_cases hst : (status == "DECLINED") = true
  · simp only [hst, if_true]
    cases hr : db.rehearsals.find? (fun r => r.id == att.rehearsalId) with
    | none => exact ⟨db.notifications, by simp [hr]⟩
    | some reh =>
        refine ⟨db.notifications ++
          (((db.bandMembers.filter (leaderInBand reh.bandId)).filter
              (fun l => l.userId != callerId)).map (fun l =>
            (⟨l.userId, "ATTENDANCE_UPDATE",
              (match db.users.find? (fun u => u.id == callerId) with
               | some u => u.name
               | none => "undefined") ++ " cannot make it to " ++ reh.title ++
                (match reason with
                 | some r => ": " ++ r
                 | none => ""), some rehearsalId⟩ : Notification))), ?_⟩
        simp [hr]
  · simp only [Bool.not_eq_true] at hst
    exact ⟨db.notifications, by simp [hst]⟩

/-- A row that is not the replaced one survives
applyAttendanceUpdate unchanged, given globally distinct row ids. -/
theorem mem_applyAttendanceUpdate_of_ne (l : List RehearsalAttendance)
    (att upd a : RehearsalAttendance)
    (hids : (l.map (fun x => x.id)).Nodup) (hmem : att ∈ l)
    (ha : a ∈ l) (hne : a ≠ att) :
    a ∈ applyAttendanceUpdate l att.id upd := by
  have hid : a.id ≠ att.id := fun h =>
    hne (List.inj_on_of_nodup_map hids ha hmem h)
  have h2 := List.mem_map_of_mem (fun x => if x.id == att.id then upd else x) ha
  unfold applyAttendanceUpdate
  simpa [hid] using h2

/-- The replacement row is present after applyAttendanceUpdate. -/
theorem updated_mem_applyAttendanceUpdate (l : List RehearsalAttendance)
    (att upd : RehearsalAttendance) (hmem : att ∈ l) :
    upd ∈ applyAttendanceUpdate l att.id upd := by
  have h2 := List.mem_map_of_mem (fun x => if x.id == att.id then upd else x) hmem
  unfold applyAttendanceUpdate
  simpa using h2

/-- C10: an attendance update, in either variant, leaves the
rehearsal, user, band and membership tables untouched; every
attendance row that is not the calling user's row for the targeted
rehearsal is still present unchanged; and when the caller's row was
found, the rewritten row — new status, comment/reason and timestamp —
is present.  Row ids are assumed globally distinct, as the database's
primary-key constraint guarantees. -/
theorem attendance_update_frame (db : DB)
    (callerId callerName rehearsalId status : String)
    (comment reason : Option String) (now : Int)
    (hids : (db.attendances.map (fun x => x.id)).Nodup) :
    ((updateAttendancePut db callerId callerName rehearsalId status comment now).2.rehearsals = db.rehearsals ∧
     (updateAttendancePut db callerId callerName rehearsalId status comment now).2.users = db.users ∧
     (updateAttendancePut db callerId callerName rehearsalId status comment now).2.bands = db.bands ∧
     (updateAttendancePut db callerId callerName rehearsalId status comment now).2.bandMembers = db.bandMembers ∧
     (∀ a ∈ db.attendances, (a.userId ≠ callerId ∨ a.rehearsalId ≠ rehearsalId) →
       a ∈ (updateAttendancePut db callerId callerName rehearsalId status comment now).2.attendances) ∧
     (∀ att, db.attendances.find? (attendanceOf rehearsalId callerId) = some att →
       putUpdatedRow att status comment now ∈
         (updateAttendancePut db callerId callerName rehearsalId status comment now).2.attendances)) ∧
    ((updateAttendancePost db callerId rehearsalId status reason now).2.rehearsals = db.rehearsals ∧
     (updateAttendancePost db callerId rehearsalId status reason now).2.users = db.users ∧
     (updateAttendancePost db callerId rehearsalId status reason now).2.bands = db.bands ∧
     (updateAttendancePost db callerId rehearsalId status reason now).2.bandMembers = db.bandMembers ∧
     (∀ a ∈ db.attendances, (a.userId ≠ callerId ∨ a.rehearsalId ≠ rehearsalId) →
       a ∈ (updateAttendancePost db callerId rehearsalId status reason now).2.attendances) ∧
     (∀ att, db.attendances.find? (attendanceOf rehearsalId callerId) = some att →
       postUpdatedRow att status reason now ∈
         (updateAttendancePost db callerId rehearsalId status reason now).2.attendances)) := by
  constructor
  · cases hm : db.attendances.find? (attendanceOf rehearsalId callerId) with
    | none =>
        rw [updateAttendancePut_notFound db callerId callerName rehearsalId status
          comment now hm]
        exact ⟨rfl, rfl, rfl, rfl, fun a ha _ => ha,
          fun att hatt => absurd hatt (by simp)⟩
    | some att =>
        obtain ⟨notifs, heq⟩ := updateAttendancePut_state db callerId callerName
          rehearsalId status comment now att hm
        rw [heq]
        have hmem : att ∈ db.attendances := List.mem_of_find?_eq_some hm
        have hattr : att.rehearsalId = rehearsalId ∧ att.userId = callerId := by
          have := List.find?_some hm
          simpa [attendanceOf, Bool.and_eq_true] using this
        refine ⟨rfl, rfl, rfl, rfl, fun a ha hne' => ?_, fun att' hatt' => ?_⟩
        · have hne : a ≠ att := by
            intro he
            subst he
            rcases hne' with h | h
            · exact h hattr.2
            · exact h hattr.1
          exact mem_applyAttendanceUpdate_of_ne db.attendances att _ a hids hmem ha hne
        · cases Option.some.inj hatt'
          exact updated_mem_applyAttendanceUpdate db.attendances att _ hmem
  · cases hm : db.attendances.find? (attendanceOf rehearsalId callerId) with
    | none =>
        rw [updateAttendancePost_notFound db callerId rehearsalId status reason now hm]
        exact ⟨rfl, rfl, rfl, rfl, fun a ha _ => ha,
          fun att hatt => absurd hatt (by simp)⟩
    | some att =>
        obtain ⟨notifs, heq⟩ := updateAttendancePost_state db callerId rehearsalId
          status reason now att hm
        rw [heq]
        have hmem : att ∈ db.attendances := List.mem_of_find?_eq_some hm
        have hattr : att.rehearsalId = rehearsalId ∧ att.userId = callerId := by
          have := List.find?_some hm
          simpa [attendanceOf, Bool.and_eq_true] using this
        refine ⟨rfl, rfl, rfl, rfl, fun a ha hne' => ?_, fun att' hatt' => ?_⟩
        · have hne : a ≠ att := by
            intro he
            subst he
            rcases hne' with h | h
            · exact h hattr.2
            · exact h hattr.1
          exact mem_applyAttendanceUpdate_of_ne db.attendances att _ a hids hmem ha hne
        · cases Option.some.inj hatt'
          exact updated_mem_applyAttendanceUpdate db.attendances att _ hmem

/-- Witness for C10: after uM updates their attendance, in either
variant, the tables besides attendance are untouched and leader uL1's
row a2 is still present unchanged. -/
theorem attendance_update_frame_witness :
    (updateAttendancePut c10ExDB "uM" "Mona" "r1" "MAYBE" none 7).2.rehearsals =
        c10ExDB.rehearsals ∧
      (⟨"a2", "r1", "uL1", "PENDING", none, none, 0, none⟩ : RehearsalAttendance) ∈
        (updateAttendancePut c10ExDB "uM" "Mona" "r1" "MAYBE" none 7).2.attendances ∧
      (⟨"a2", "r1", "uL1", "PENDING", none, none, 0, none⟩ : RehearsalAttendance) ∈
        (updateAttendancePost c10ExDB "uM" "r1" "MAYBE" none 7).2.attendances :=
  have h := attendance_update_frame c10ExDB "uM" "Mona" "r1" "MAYBE" none none 7
    (by decide)
  ⟨h.1.1,
   h.1.2.2.2.2.1 ⟨"a2", "r1", "uL1", "PENDING", none, none, 0, none⟩ (by decide)
     (Or.inl (by decide)),
   h.2.2.2.2.2.1 ⟨"a2", "r1", "uL1", "PENDING", none, none, 0, none⟩ (by decide)
     (Or.inl (by decide))⟩

end RehearsalScheduler
